import Mathlib

/-!
Verification development for the nfc-gate-service daemon: a shallow
embedding in Lean 4 of the relay-actuation protocol
(`src/relay_controller.py`), the authorization pipeline and card-read
handler (`src/turnstile_controller.py`), the durable offline access-event
queue (`src/access_logger.py`) and the self-update pipeline
(`src/updater.py`), together with theorems about the behaviour those
modules implement.
-/

namespace NfcGate

/-! ## Device types (src/config.py)

`Config.DEVICE_TYPE` is either `'turnstile'` or `'door'`
(`config.py:75-76`); `is_turnstile` (`config.py:90-92`) tests for
`'turnstile'`. -/

inductive DeviceType where
  | turnstile
  | door
  deriving DecidableEq, Repr

/-- `Config.is_turnstile` (`config.py:90-92`). -/
def is_turnstile : DeviceType → Bool
  | .turnstile => true
  | .door => false

/-! ## Relay controller (src/relay_controller.py)

One relay channel carries a boolean energized state
(`relay_states[channel]`) and at most one pending timed-deactivation
task (`_relay_tasks[channel]`).  We model the pending task by the
absolute time at which its `asyncio.sleep(duration)` elapses and its
deactivation fires.  Time is abstracted as `Nat`. -/

structure RelayChannelState where
  energized : Bool
  /-- Absolute time at which the pending `_timed_relay_activation` task
  de-energizes the channel; `none` when no task is pending. -/
  deadline : Option Nat
  deriving DecidableEq, Repr

/-- Initial state after `initialize` (`relay_controller.py:27-49`):
relay off, no pending task. -/
def RelayChannelState.init : RelayChannelState := ⟨false, none⟩

/-- Cancellation of a pending `_timed_relay_activation` task
(`relay_controller.py:62-63` cancels; `relay_controller.py:93-97` is the
`CancelledError` handler, which still drives the relay to the
de-energized state before the cancellation completes). -/
def cancelPending (s : RelayChannelState) : RelayChannelState :=
  match s.deadline with
  | some _ => ⟨false, none⟩
  | none => s

/-- One `activate_relay` call on a known channel at time `t` with
duration `d` (`relay_controller.py:51-75`): any pending task for the
channel is cancelled (its cancellation path de-energizes the relay),
then a fresh `_timed_relay_activation` task energizes the channel and
schedules de-energization at `t + d` (`relay_controller.py:77-101`). -/
def activateCall (s : RelayChannelState) (t d : Nat) : RelayChannelState :=
  let s1 := cancelPending s
  { s1 with energized := true, deadline := some (t + d) }

/-- Observing the channel at time `now`: when the pending task's sleep
has elapsed (`deadline ≤ now`), `_timed_relay_activation` has run its
deactivation (`relay_controller.py:86-89`) and finished. -/
def expireAt (s : RelayChannelState) (now : Nat) : RelayChannelState :=
  match s.deadline with
  | some dl => if dl ≤ now then ⟨false, none⟩ else s
  | none => s

/-- The relay-pin map built in `RelayController.__init__`
(`relay_controller.py:16-22`): channel 1 always maps to
`RELAY_CHANNEL_1`; channel 2 maps to `RELAY_CHANNEL_2` only on a
turnstile device (`config.py:32` leaves it `None` on a door), and
`None`-valued channels are filtered out. -/
def relay_pins (dev : DeviceType) (pin1 pin2 : Nat) : List (Nat × Nat) :=
  let raw : List (Nat × Option Nat) :=
    [(1, some pin1), (2, if is_turnstile dev then some pin2 else none)]
  raw.filterMap (fun p => p.2.map (fun v => (p.1, v)))

/-- The whole relay controller: device type, configured pins, and the
per-channel states (`relay_states` / `_relay_tasks`). -/
structure RelayCtrl where
  dev : DeviceType
  pin1 : Nat
  pin2 : Nat
  states : Nat → RelayChannelState

/-- `RelayController.activate_relay` (`relay_controller.py:51-75`): an
unknown channel returns `False` with no side effect
(`relay_controller.py:53-55`); a known channel supersedes its pending
task and starts a fresh timed activation, returning `True`. -/
def RelayCtrl.activate_relay (c : RelayCtrl) (channel t d : Nat) :
    RelayCtrl × Bool :=
  if ((relay_pins c.dev c.pin1 c.pin2).map Prod.fst).contains channel then
    ({ c with
        states := fun ch =>
          if ch = channel then activateCall (c.states ch) t d else c.states ch },
      true)
  else
    (c, false)

/-- `TurnstileController._open_turnstile` (`turnstile_controller.py:162-171`):
direction `'in'` actuates channel 1; direction `'out'` actuates channel 2
only on a turnstile device; otherwise nothing happens. -/
def open_turnstile (c : RelayCtrl) (direction : String) (t d : Nat) : RelayCtrl :=
  if direction = "in" then (c.activate_relay 1 t d).1
  else if direction = "out" ∧ is_turnstile c.dev then (c.activate_relay 2 t d).1
  else c

/-- A sequence of `activate_relay` calls on one known channel, each
given as (call time, duration). -/
def runRelayCalls (c : RelayCtrl) (channel : Nat) (calls : List (Nat × Nat)) :
    RelayCtrl :=
  calls.foldl (fun st p => (st.activate_relay channel p.1 p.2).1) c

/-! ## Authorization pipeline (src/turnstile_controller.py)

`TurnstileController._check_authorization` (`turnstile_controller.py:141-160`)
delegates to `backend_client.check_access` while online and reads the
`authorized` field of the response with default `False`; while offline,
or when the online check raises, it falls back to whitelist membership
when `FALLBACK_MODE_ENABLED`, else denies. -/

/-- The payload returned by `backend_client.check_access`; the
`authorized` field may be absent (`response.get('authorized', False)`,
`turnstile_controller.py:147`). -/
structure BackendResponse where
  authorized : Option Bool
  deriving DecidableEq, Repr

/-- `TurnstileController._check_authorization`
(`turnstile_controller.py:141-160`).  `backendResult` is the outcome of
the awaited `check_access` call: `.error` models a raised transport
exception, caught at `turnstile_controller.py:154`. -/
def check_authorization (online fallbackEnabled : Bool)
    (backendResult : Except Unit BackendResponse)
    (whitelist : List String) (card : String) : Bool :=
  if online then
    match backendResult with
    | .ok r => r.authorized.getD false
    | .error _ =>
        if fallbackEnabled then whitelist.contains card else false
  else
    if fallbackEnabled then whitelist.contains card else false

/-! ## JSON documents and access events

The access-event records handled by the logger are the dict literals
built in `_handle_card_read` (`turnstile_controller.py:123-130`) and
`_handle_websocket_command` (`turnstile_controller.py:239-246`), and the
offline-queue file holds a JSON array of such objects
(`access_logger.py:113-120`).  We model the JSON layer at the level of
the structured values the `json` module serializes: an object is an
ordered association list of fields whose values here are strings or
booleans. -/

inductive JsonVal where
  | str (s : String)
  | bool (b : Bool)
  deriving DecidableEq, Repr

/-- A JSON object (a Python dict): ordered key/value pairs. -/
abbrev JsonObj := List (String × JsonVal)

/-- Field access on an object, as Python dict lookup. -/
def lookupField : JsonObj → String → Option JsonVal
  | [], _ => none
  | (k, v) :: rest, key => if k = key then some v else lookupField rest key

/-- Python truthiness of `access_data.get(key, False)`
(`access_logger.py:53,57`): an absent field is falsy, a boolean is
itself, a string is truthy when nonempty. -/
def jsonTruthy : Option JsonVal → Bool
  | none => false
  | some (.bool b) => b
  | some (.str s) => s ≠ ""

/-- An access event as specified in the data model: device id, card id,
direction, timestamp, authorized flag, offline-mode flag
(`turnstile_controller.py:123-130`). -/
structure AccessEvent where
  device_id : String
  card_id : String
  direction : String
  timestamp : String
  authorized : Bool
  offline_mode : Bool
  deriving DecidableEq, Repr

/-- The dict literal built for an access event
(`turnstile_controller.py:123-130`), field for field in source order. -/
def AccessEvent.toObj (e : AccessEvent) : JsonObj :=
  [("device_id", .str e.device_id),
   ("card_id", .str e.card_id),
   ("direction", .str e.direction),
   ("timestamp", .str e.timestamp),
   ("authorized", .bool e.authorized),
   ("offline_mode", .bool e.offline_mode)]

/-- Reading one access event back out of a JSON object, by field lookup
(dict semantics: position of a field inside the object is irrelevant). -/
def decodeEvent (o : JsonObj) : Option AccessEvent :=
  match lookupField o "device_id", lookupField o "card_id",
        lookupField o "direction", lookupField o "timestamp",
        lookupField o "authorized", lookupField o "offline_mode" with
  | some (.str dev), some (.str card), some (.str dir), some (.str ts),
    some (.bool auth), some (.bool off) =>
      some ⟨dev, card, dir, ts, auth, off⟩
  | _, _, _, _, _, _ => none

/-- Reading the whole offline-queue document (a JSON array of event
objects) back as a list of events, in order. -/
def decodeDoc : List JsonObj → Option (List AccessEvent)
  | [] => some []
  | o :: rest =>
    match decodeEvent o, decodeDoc rest with
    | some e, some l => some (e :: l)
    | _, _ => none

/-! ## Access logger (src/access_logger.py) -/

/-- The state owned by `AccessLogger`: the in-memory cache of offline
log dicts (`_offline_logs_cache`), the persisted document on disk
(`none` when the file write has never succeeded), and a count of the
capacity warnings raised (`access_logger.py:84`). -/
structure LoggerState where
  cache : List JsonObj
  persistedDoc : Option (List JsonObj)
  warnings : Nat
  deriving DecidableEq, Repr

/-- The logger's state after `initialize` with no pre-existing file:
empty cache, nothing persisted, no warnings. -/
def LoggerState.empty : LoggerState := ⟨[], none, 0⟩

/-- The last `n` elements of a list, Python `l[-n:]`
(`access_logger.py:83`). -/
def lastN (n : Nat) (l : List α) : List α := l.drop (l.length - n)

/-- `AccessLogger._save_offline_log` (`access_logger.py:73-90`): under
the queue lock, append the record to the cache; when the cache exceeds
`MAX_OFFLINE_LOGS` keep only the most recent `cap` entries and raise a
warning; then re-persist the whole queue.  `persistFails` models an I/O
error inside `_persist_offline_logs`, which that function catches
itself (`access_logger.py:119-120`), leaving the on-disk document
unchanged but never propagating. -/
def save_offline_log (cap : Nat) (persistFails : Bool) (s : LoggerState)
    (obj : JsonObj) : LoggerState :=
  let cache1 := s.cache ++ [obj]
  if cache1.length > cap then
    { cache := lastN cap cache1
      persistedDoc := if persistFails then s.persistedDoc else some (lastN cap cache1)
      warnings := s.warnings + 1 }
  else
    { cache := cache1
      persistedDoc := if persistFails then s.persistedDoc else some cache1
      warnings := s.warnings }

/-- `AccessLogger.log_access` (`access_logger.py:41-71`).  The whole
body sits in one `try`: a timestamp is added when missing
(`access_logger.py:45-46`), the record is logged to the observability
sink (`access_logger.py:49-54`, may raise — modelled by
`localLogFails`), an offline-mode record is appended to the durable
queue (`access_logger.py:61-63`), and the real-time send is a no-op
(`access_logger.py:144-151`).  The `except` arm catches every exception
and still attempts the offline save (`access_logger.py:68-71`), so the
call never propagates an exception: the returned `Except` is the
outcome seen by the caller. -/
def log_access (cap : Nat) (localLogFails persistFails : Bool)
    (s : LoggerState) (obj : JsonObj) (nowTs : String) :
    LoggerState × Except String Unit :=
  let obj := if (lookupField obj "timestamp").isSome then obj
             else obj ++ [("timestamp", JsonVal.str nowTs)]
  if localLogFails then
    (save_offline_log cap persistFails s obj, Except.ok ())
  else
    let offline := jsonTruthy (lookupField obj "offline_mode")
    let s := if offline then save_offline_log cap persistFails s obj else s
    (s, Except.ok ())

/-- A sequence of `_save_offline_log` appends. -/
def appendAll (cap : Nat) (persistFails : Bool) (s : LoggerState)
    (objs : List JsonObj) : LoggerState :=
  objs.foldl (save_offline_log cap persistFails) s

/-! ## Offline-queue persistence (src/access_logger.py:92-120)

`_persist_offline_logs` writes `json.dumps(cache)` to the file;
`_load_offline_logs` reads the file if it exists, treats
whitespace-only content as empty, parses the rest with `json.loads`,
and self-heals any exception to an empty cache, always ending with
`_cache_loaded = True`.  The `json` module is an external collaborator;
`dump`/`parse` are its two directions. -/

/-- `AccessLogger._persist_offline_logs` (`access_logger.py:113-120`):
the text written to the offline-logs file. -/
def persist_offline_logs (dump : List JsonObj → String)
    (cache : List JsonObj) : String :=
  dump cache

/-- Python's `content.strip()` (`access_logger.py:98`) yields a falsy
(empty) string exactly when every character of the content is
whitespace. -/
def isBlank (text : String) : Bool :=
  text.toList.all (fun ch => ch.isWhitespace)

/-- `AccessLogger._load_offline_logs` (`access_logger.py:92-111`).
`file` is the offline-logs file content (`none` when the file does not
exist).  Returns the resulting cache and the `_cache_loaded` flag.  A
parse failure (`parse text = none`, i.e. `json.loads` raised) lands in
the `except` arm, which resets the cache to `[]` and still marks the
cache loaded. -/
def load_offline_logs (parse : String → Option (List JsonObj))
    (file : Option String) : List JsonObj × Bool :=
  match file with
  | none => ([], true)
  | some text =>
    if isBlank text then ([], true)
    else
      match parse text with
      | some doc => (doc, true)
      | none => ([], true)

/-! ## Card-read handling (src/turnstile_controller.py:115-139) -/

/-- `TurnstileController._handle_card_read`
(`turnstile_controller.py:115-139`): resolve authorization, build
exactly one access-event dict, hand it to `log_access`, then actuate
only when authorized.  Returns the new logger state, the list of event
objects produced during the run, and whether the relay actuation is
reached.  Were `log_access` to raise (`.error`), the exception would
propagate out of `_handle_card_read` before the actuation line runs,
which the `.error` arm records as no actuation. -/
def handle_card_read (cap : Nat) (localLogFails persistFails : Bool)
    (deviceId card direction nowTs : String)
    (online fallbackEnabled : Bool)
    (backendResult : Except Unit BackendResponse)
    (whitelist : List String) (ls : LoggerState) :
    LoggerState × List JsonObj × Bool :=
  let authorized := check_authorization online fallbackEnabled backendResult
    whitelist card
  let ev : AccessEvent :=
    ⟨deviceId, card, direction, nowTs, authorized, !online⟩
  match log_access cap localLogFails persistFails ls ev.toObj nowTs with
  | (ls1, .ok _) => (ls1, [ev.toObj], authorized)
  | (ls1, .error _) => (ls1, [ev.toObj], false)

/-! ## Auto-updater (src/updater.py)

The updater owns the application tree (`/home/turnstile/app`), the
backup directory (`backup_*.tar.gz` archives) and the `VERSION` marker.
A directory tree's content is abstracted as a `String`; the backup
directory is the list of archived tree contents in creation order
(newest last), matching newest-first selection by `os.path.getctime`
(`updater.py:382,402`). -/

/-- The update metadata returned by `backend_client.check_updates`
(`updater.py:68-85,154-171`). -/
structure UpdInfo where
  id : String
  version : String
  update_available : Bool
  hash : Option String
  size : Option Nat
  format : String
  requires_restart : Bool
  deriving DecidableEq, Repr

/-- Filesystem state touched by the updater. -/
structure FsState where
  /-- Content of the live application tree (`app_dir`). -/
  appTree : String
  /-- Backup archives in creation order (oldest first, newest last);
  each holds the tree content it archived. -/
  backups : List String
  /-- Content of the `VERSION` marker, `none` when absent. -/
  versionText : Option String
  /-- Whether the `restart_required` marker exists. -/
  restartMarker : Bool
  deriving DecidableEq, Repr

/-- Whole updater state: filesystem, the `updating` flag
(`updater.py:31`), and the status reports sent to the backend via
`report_update_status` (`updater.py:98-100,130-132,144-146`). -/
structure UpdaterState where
  fs : FsState
  updating : Bool
  reports : List (String × String)
  deriving DecidableEq, Repr

/-- `AutoUpdater.get_current_version` (`updater.py:46-53`): the
`VERSION` marker's text (whitespace-stripped by `read_text().strip()`;
`versionText` holds the stripped value), or `'1.0.0'` when the file is
absent or unreadable. -/
def get_current_version (fs : FsState) : String :=
  fs.versionText.getD "1.0.0"

/-- `AutoUpdater._verify_update` (`updater.py:154-177`): when a hash is
supplied it must equal the SHA-256 hex digest of the downloaded bytes;
when a size is supplied it must equal their length.  `sha256hex` is the
`hashlib` collaborator. -/
def verify_update (sha256hex : List Nat → String) (data : List Nat)
    (info : UpdInfo) : Bool :=
  (match info.hash with
   | some h => sha256hex data == h
   | none => true) &&
  (match info.size with
   | some n => data.length == n
   | none => true)

/-- `AutoUpdater._create_backup` (`updater.py:179-199`): archive the
current application tree into the backup directory, then
`_cleanup_old_backups` (`updater.py:398-410`) keeps only the 5 most
recently created archives. -/
def create_backup (fs : FsState) : FsState :=
  let bs := fs.backups ++ [fs.appTree]
  { fs with backups := if bs.length > 5 then lastN 5 bs else bs }

/-- `AutoUpdater._restore_backup` (`updater.py:373-396`): when no
archive exists, return without touching anything; otherwise remove the
current application tree and re-extract the most recent archive in its
place. -/
def restore_backup (fs : FsState) : FsState :=
  match fs.backups.getLast? with
  | none => fs
  | some b => { fs with appTree := b }

/-- The archive formats `_extract_update` supports
(`updater.py:217-224`). -/
def supportedFormats : List String := ["tar.gz", "tgz", "zip"]

/-- The failure arm of `_perform_update` (`updater.py:140-152`): report
`failed` to the backend, attempt `_restore_backup`, and clear the
`updating` flag in the `finally`. -/
def updateFailPath (s : UpdaterState) (uid : String) : UpdaterState :=
  { fs := restore_backup s.fs
    updating := false
    reports := s.reports ++ [(uid, "failed")] }

/-- `AutoUpdater._perform_update` (`updater.py:90-152`).  External
outcomes are parameters: `downloadResult` is what
`backend_client.download_update` returns (`none` for a failed/empty
download), `backupFails` an I/O failure inside `_create_backup`
(caught there, returning `None`), `extractFails` a failure inside
`_extract_update`, `applyFails` a failure inside `_apply_update`
leaving the partially-written tree `brokenTree`, and `stagedTree` the
tree content the verified package unpacks to.  Every failure raises
into the single `except` arm (`updateFailPath`); the `finally` clears
`updating` on every path. -/
def perform_update (sha256hex : List Nat → String) (s : UpdaterState)
    (info : UpdInfo) (downloadResult : Option (List Nat))
    (backupFails extractFails applyFails : Bool)
    (stagedTree brokenTree : String) : UpdaterState :=
  let uid := info.id
  let s1 : UpdaterState :=
    { s with updating := true, reports := s.reports ++ [(uid, "started")] }
  match downloadResult with
  | none => updateFailPath s1 uid
  | some data =>
    if !verify_update sha256hex data info then updateFailPath s1 uid
    else if backupFails then updateFailPath s1 uid
    else
      let s2 : UpdaterState := { s1 with fs := create_backup s1.fs }
      if extractFails || !supportedFormats.contains info.format then
        updateFailPath s2 uid
      else if applyFails then
        updateFailPath { s2 with fs := { s2.fs with appTree := brokenTree } } uid
      else
        let s3 : UpdaterState :=
          { s2 with fs := { s2.fs with appTree := stagedTree,
                                       versionText := some info.version } }
        let s4 : UpdaterState :=
          { s3 with reports := s3.reports ++ [(uid, "completed")] }
        let s5 : UpdaterState :=
          if info.requires_restart then
            { s4 with fs := { s4.fs with restartMarker := true } }
          else s4
        { s5 with updating := false }

/-- `AutoUpdater.check_and_update` (`updater.py:55-88`): skip when a
session is active; skip when auto-update is disabled; ask the backend
for metadata (`meta`, `none` when the call returned nothing or raised);
skip when the metadata's `update_available` flag is false; otherwise
run `_perform_update`.  The second component reports whether a session
was opened. -/
def check_and_update (autoUpdateEnabled : Bool)
    (sha256hex : List Nat → String) (s : UpdaterState)
    (meta : Option UpdInfo) (downloadResult : Option (List Nat))
    (backupFails extractFails applyFails : Bool)
    (stagedTree brokenTree : String) : UpdaterState × Bool :=
  if s.updating then (s, false)
  else if !autoUpdateEnabled then (s, false)
  else
    match meta with
    | none => (s, false)
    | some info =>
      if !info.update_available then (s, false)
      else
        (perform_update sha256hex s info downloadResult backupFails
          extractFails applyFails stagedTree brokenTree, true)

/-! ## Theorems -/

/-! ### Relay controller -/

theorem activate_relay_preserves_config (c : RelayCtrl) (channel t d : Nat) :
    (c.activate_relay channel t d).1.dev = c.dev ∧
    (c.activate_relay channel t d).1.pin1 = c.pin1 ∧
    (c.activate_relay channel t d).1.pin2 = c.pin2 := by
  unfold RelayCtrl.activate_relay
  split <;> exact ⟨rfl, rfl, rfl⟩

theorem activate_relay_states_self (c : RelayCtrl) (channel t d : Nat)
    (h : ((relay_pins c.dev c.pin1 c.pin2).map Prod.fst).contains channel = true) :
    (c.activate_relay channel t d).1.states channel
      = activateCall (c.states channel) t d := by
  unfold RelayCtrl.activate_relay
  simp only [h]
  simp

theorem runRelayCalls_states (channel : Nat) (calls : List (Nat × Nat))
    (c : RelayCtrl)
    (h : ((relay_pins c.dev c.pin1 c.pin2).map Prod.fst).contains channel = true) :
    (runRelayCalls c channel calls).states channel
      = calls.foldl (fun st p => activateCall st p.1 p.2) (c.states channel) := by
  induction calls generalizing c with
  | nil => rfl
  | cons p rest ih =>
    have hpres := activate_relay_preserves_config c channel p.1 p.2
    have h' : (((relay_pins (c.activate_relay channel p.1 p.2).1.dev
        (c.activate_relay channel p.1 p.2).1.pin1
        (c.activate_relay channel p.1 p.2).1.pin2).map Prod.fst).contains channel)
        = true := by
      rw [hpres.1, hpres.2.1, hpres.2.2]; exact h
    show (runRelayCalls (c.activate_relay channel p.1 p.2).1 channel rest).states channel = _
    rw [ih _ h', activate_relay_states_self c channel p.1 p.2 h]
    rfl

theorem foldl_activateCall_last :
    ∀ (calls : List (Nat × Nat)) (s : RelayChannelState) (t d : Nat),
      calls.getLast? = some (t, d) →
      calls.foldl (fun st p => activateCall st p.1 p.2) s
        = ⟨true, some (t + d)⟩
  | [], _, _, _, h => by simp at h
  | [p], s, t, d, h => by
    obtain ⟨rfl⟩ : p = (t, d) := by simpa using h
    rfl
  | p :: q :: rest, s, t, d, h => by
    rw [List.getLast?_cons_cons] at h
    simpa using foldl_activateCall_last (q :: rest) (activateCall s p.1 p.2) t d h

/-- C1: for any sequence of `activate_relay(channel, d)` calls on one known
channel, each later activation supersedes the pending timer and starts a
fresh deactivation window — after the whole sequence the pending deadline
is exactly `t + d` of the last call, never queued or extended — the
cancellation path itself drives a pending channel de-energized, and at any
time at least `d` after the last call the channel is back in the
de-energized safe state, so no call leaves it energized indefinitely. -/
theorem relay_safe_after_last_call (c : RelayCtrl) (channel : Nat)
    (calls : List (Nat × Nat)) (t d now : Nat)
    (hmem : ((relay_pins c.dev c.pin1 c.pin2).map Prod.fst).contains channel = true)
    (hlast : calls.getLast? = some (t, d)) (hnow : t + d ≤ now) :
    ((runRelayCalls c channel calls).states channel).deadline = some (t + d) ∧
    (expireAt ((runRelayCalls c channel calls).states channel) now).energized
      = false ∧
    (∀ st : RelayChannelState, st.deadline.isSome → (cancelPending st).energized = false) := by
  rw [runRelayCalls_states channel calls c hmem,
      foldl_activateCall_last calls (c.states channel) t d hlast]
  refine ⟨rfl, by simp [expireAt, hnow], ?_⟩
  intro st hst
  cases st with
  | mk e dl => cases dl with
    | none => simp at hst
    | some x => rfl

theorem relay_safe_after_last_call_witness :
    (expireAt ((runRelayCalls ⟨DeviceType.turnstile, 18, 19, fun _ => RelayChannelState.init⟩
        1 [(0, 3), (1, 3)]).states 1) 4).energized = false :=
  (relay_safe_after_last_call ⟨DeviceType.turnstile, 18, 19, fun _ => RelayChannelState.init⟩
    1 [(0, 3), (1, 3)] 1 3 4 (by decide) (by decide) (by decide)).2.1

/-- C10: on a door device, channel 2 is filtered out of the relay-pin map,
so `_open_turnstile('out')` performs no actuation and leaves the controller
unchanged, and `activate_relay(2)` returns `False` with no side effect. -/
theorem door_out_direction_noop (c : RelayCtrl) (t d : Nat)
    (h : c.dev = DeviceType.door) :
    open_turnstile c "out" t d = c ∧ c.activate_relay 2 t d = (c, false) := by
  have hpins : ((relay_pins c.dev c.pin1 c.pin2).map Prod.fst).contains 2 = false := by
    rw [h]; rfl
  have hact : c.activate_relay 2 t d = (c, false) := by
    unfold RelayCtrl.activate_relay
    simp only [hpins]
    simp
  refine ⟨?_, hact⟩
  unfold open_turnstile
  rw [if_neg (by decide), if_neg (by rw [h]; simp [is_turnstile])]

theorem door_out_direction_noop_witness :
    open_turnstile ⟨DeviceType.door, 18, 19, fun _ => RelayChannelState.init⟩ "out" 0 3
      = ⟨DeviceType.door, 18, 19, fun _ => RelayChannelState.init⟩ :=
  (door_out_direction_noop ⟨DeviceType.door, 18, 19, fun _ => RelayChannelState.init⟩
    0 3 rfl).1

/-! ### Authorization pipeline -/

/-- C2: while online the pipeline returns the backend's `authorized` flag;
while offline, or when the online backend check raises, it returns
whitelist membership when fallback mode is enabled and denies when
fallback mode is disabled. -/
theorem check_authorization_spec (online fb : Bool)
    (res : Except Unit BackendResponse) (wl : List String) (card : String)
    (b : Bool) :
    (online = true → res = .ok ⟨some b⟩ →
      check_authorization online fb res wl card = b) ∧
    (online = false →
      check_authorization online fb res wl card = (fb && wl.contains card)) ∧
    (online = true → res = .error () →
      check_authorization online fb res wl card = (fb && wl.contains card)) := by
  refine ⟨?_, ?_, ?_⟩
  · rintro rfl rfl
    simp [check_authorization]
  · rintro rfl
    cases fb <;> simp [check_authorization]
  · rintro rfl rfl
    cases fb <;> simp [check_authorization]

theorem check_authorization_spec_witness :
    check_authorization true true (.ok ⟨some true⟩) [] "card1" = true ∧
    check_authorization false true (.ok ⟨some true⟩) ["card1"] "card1" = true ∧
    check_authorization false false (.ok ⟨some true⟩) ["card1"] "card1" = false := by
  have h1 := (check_authorization_spec true true (.ok ⟨some true⟩) [] "card1" true).1
    rfl rfl
  have h2 := (check_authorization_spec false true (.ok ⟨some true⟩) ["card1"] "card1"
    true).2.1 rfl
  have h3 := (check_authorization_spec false false (.ok ⟨some true⟩) ["card1"] "card1"
    true).2.1 rfl
  exact ⟨h1, by simpa using h2, by simpa using h3⟩

/-! ### Offline-queue loading -/

/-- C9: loading the offline queue yields the persisted document when the
file exists and parses; an empty queue when the file is absent or
whitespace-only; and an empty queue, not a raised error, when the content
is malformed (`json.loads` fails); in every case loading completes with
the cache marked loaded. -/
theorem load_offline_logs_spec (parse : String → Option (List JsonObj))
    (file : Option String) :
    (load_offline_logs parse file).2 = true ∧
    (∀ text doc, file = some text → isBlank text = false → parse text = some doc →
      (load_offline_logs parse file).1 = doc) ∧
    (file = none → (load_offline_logs parse file).1 = []) ∧
    (∀ text, file = some text → isBlank text = true →
      (load_offline_logs parse file).1 = []) ∧
    (∀ text, file = some text → isBlank text = false → parse text = none →
      (load_offline_logs parse file).1 = []) := by
  refine ⟨?_, ?_, ?_, ?_, ?_⟩
  · unfold load_offline_logs
    rcases file with _ | text
    · rfl
    · by_cases ht : isBlank text
      · simp [ht]
      · rcases hp : parse text with _ | doc <;> simp [ht, hp]
  · rintro text doc rfl ht hp
    simp [load_offline_logs, ht, hp]
  · rintro rfl
    rfl
  · rintro text rfl ht
    simp [load_offline_logs, ht]
  · rintro text rfl ht hp
    simp [load_offline_logs, ht, hp]

theorem load_offline_logs_spec_witness :
    load_offline_logs
        (fun s => if s = "[bad" then none else some [[("authorized", JsonVal.bool true)]])
        (some "[bad")
      = ([], true) := by
  have h := load_offline_logs_spec
    (fun s => if s = "[bad" then none else some [[("authorized", JsonVal.bool true)]])
    (some "[bad")
  have h1 := h.1
  have h2 := h.2.2.2.2 "[bad" rfl (by decide) (by simp)
  exact Prod.ext h2 h1

/-! ### Card-read handling and access logging -/

theorem log_access_never_raises (cap : Nat) (llf pf : Bool) (s : LoggerState)
    (obj : JsonObj) (nowTs : String) :
    (log_access cap llf pf s obj nowTs).2 = Except.ok () := by
  cases llf <;> rfl

/-- C3: each handled badge read produces exactly one access-event record
reflecting the authorization outcome and current connectivity, hands it to
the access logger before any actuation, and since `log_access` catches
every failure — including persistence failures — and never propagates,
the relay actuation for an authorized read is never blocked by logging:
the actuation outcome equals the authorization outcome for every
combination of logging-failure flags. -/
theorem handle_card_read_spec (cap : Nat) (llf pf : Bool)
    (deviceId card direction nowTs : String) (online fb : Bool)
    (res : Except Unit BackendResponse) (wl : List String) (ls : LoggerState) :
    (log_access cap llf pf ls
        (AccessEvent.mk deviceId card direction nowTs
          (check_authorization online fb res wl card) (!online)).toObj nowTs).2
      = Except.ok () ∧
    (handle_card_read cap llf pf deviceId card direction nowTs online fb res wl ls).2.1
      = [(AccessEvent.mk deviceId card direction nowTs
          (check_authorization online fb res wl card) (!online)).toObj] ∧
    (handle_card_read cap llf pf deviceId card direction nowTs online fb res wl ls).2.2
      = check_authorization online fb res wl card := by
  have hok := log_access_never_raises cap llf pf ls
    (AccessEvent.mk deviceId card direction nowTs
      (check_authorization online fb res wl card) (!online)).toObj nowTs
  have heq : log_access cap llf pf ls
      (AccessEvent.mk deviceId card direction nowTs
        (check_authorization online fb res wl card) (!online)).toObj nowTs
      = ((log_access cap llf pf ls
          (AccessEvent.mk deviceId card direction nowTs
            (check_authorization online fb res wl card) (!online)).toObj nowTs).1,
         Except.ok ()) := by
    rw [← hok]
  refine ⟨hok, ?_, ?_⟩ <;> simp only [handle_card_read] <;> rw [heq]

theorem handle_card_read_spec_witness :
    (handle_card_read 1000 false true "dev1" "123456789" "in" "ts" true true
        (.ok ⟨some true⟩) [] LoggerState.empty).2.2 = true := by
  have h := (handle_card_read_spec 1000 false true "dev1" "123456789" "in" "ts"
    true true (.ok ⟨some true⟩) [] LoggerState.empty).2.2
  rw [h]
  rfl

/-! ### Offline-queue capacity -/

theorem lastN_length (n : Nat) (l : List α) :
    (lastN n l).length = min n l.length := by
  simp only [lastN, List.length_drop]
  omega

theorem lastN_lastN (x : List α) (m n : Nat) (hmn : m ≤ n) :
    lastN m (lastN n x) = lastN m x := by
  unfold lastN
  rw [List.length_drop, List.drop_drop]
  congr 1
  omega

theorem save_offline_log_step (cap : Nat) (pf : Bool) (s : LoggerState)
    (obj : JsonObj) (l : List JsonObj) (hc : s.cache = lastN cap l) :
    (save_offline_log cap pf s obj).cache = lastN cap (l ++ [obj]) ∧
    (save_offline_log cap pf s obj).warnings
      = s.warnings + (if cap ≤ l.length then 1 else 0) := by
  have hlen := lastN_length cap l
  have hkey : lastN cap l ++ [obj] = lastN (cap + 1) (l ++ [obj]) := by
    unfold lastN
    have h1 : (l ++ [obj]).length - (cap + 1) = l.length - cap := by
      simp only [List.length_append, List.length_cons, List.length_nil]
      omega
    rw [h1, List.drop_append_of_le_length (by omega)]
  rcases Nat.lt_or_ge l.length cap with hlt | hge
  · have hcache : s.cache = l := by
      rw [hc]
      unfold lastN
      rw [Nat.sub_eq_zero_of_le (Nat.le_of_lt hlt), List.drop_zero]
    have hcond : ¬ ((s.cache ++ [obj]).length > cap) := by
      rw [hcache]
      simp only [List.length_append, List.length_cons, List.length_nil]
      omega
    unfold save_offline_log
    rw [if_neg hcond]
    refine ⟨?_, ?_⟩
    · rw [hcache]
      unfold lastN
      rw [(by simp only [List.length_append, List.length_cons, List.length_nil]; omega :
            (l ++ [obj]).length - cap = 0),
          List.drop_zero]
    · rw [if_neg (by omega : ¬ cap ≤ l.length), Nat.add_zero]
  · have hclen : s.cache.length = cap := by
      rw [hc, hlen]
      omega
    have hcond : (s.cache ++ [obj]).length > cap := by
      simp only [List.length_append, List.length_cons, List.length_nil, hclen]
      omega
    unfold save_offline_log
    rw [if_pos hcond]
    refine ⟨?_, ?_⟩
    · rw [hc, hkey, lastN_lastN (l ++ [obj]) cap (cap + 1) (Nat.le_succ cap)]
    · rw [if_pos hge]

theorem appendAll_from_empty (cap : Nat) (pf : Bool) (objs : List JsonObj) :
    (appendAll cap pf LoggerState.empty objs).cache = lastN cap objs ∧
    (appendAll cap pf LoggerState.empty objs).warnings
      = objs.length - min objs.length cap := by
  induction objs using List.reverseRecOn with
  | nil =>
    refine ⟨?_, ?_⟩ <;> simp [appendAll, lastN, LoggerState.empty]
  | append_singleton l a ih =>
    have hstep := save_offline_log_step cap pf
      (appendAll cap pf LoggerState.empty l) a l ih.1
    have hfold : appendAll cap pf LoggerState.empty (l ++ [a])
        = save_offline_log cap pf (appendAll cap pf LoggerState.empty l) a := by
      unfold appendAll
      rw [List.foldl_append]
      rfl
    rw [hfold]
    refine ⟨hstep.1, ?_⟩
    rw [hstep.2, ih.2]
    simp only [List.length_append, List.length_cons, List.length_nil]
    by_cases h : cap ≤ l.length <;> simp only [h, if_true, if_false, if_pos, if_neg,
      not_false_iff] <;> omega

/-- C7: appending any sequence of records to the offline queue from an
empty start leaves the cache holding exactly the most recent `cap`
records in original relative order, never more than `cap`, and a
capacity warning is raised exactly once per append that exceeded the
bound (`objs.length - min objs.length cap` warnings in total). -/
theorem offline_queue_capacity (cap : Nat) (pf : Bool) (objs : List JsonObj) :
    (appendAll cap pf LoggerState.empty objs).cache = lastN cap objs ∧
    (appendAll cap pf LoggerState.empty objs).cache.length ≤ cap ∧
    (appendAll cap pf LoggerState.empty objs).warnings
      = objs.length - min objs.length cap := by
  obtain ⟨h1, h2⟩ := appendAll_from_empty cap pf objs
  refine ⟨h1, ?_, h2⟩
  rw [h1, lastN_length]
  exact Nat.min_le_left _ _

/-! ### Offline-queue document round trip -/

theorem lookupField_perm {o₁ o₂ : JsonObj} (h : o₁.Perm o₂)
    (hn : (o₁.map Prod.fst).Nodup) (key : String) :
    lookupField o₁ key = lookupField o₂ key := by
  induction h with
  | nil => rfl
  | cons x h ih =>
    obtain ⟨k, v⟩ := x
    simp only [List.map_cons, List.nodup_cons] at hn
    simp only [lookupField]
    by_cases hk : k = key
    · simp [hk]
    · simp only [hk, if_false]
      exact ih hn.2
  | swap x y l =>
    obtain ⟨kx, vx⟩ := x
    obtain ⟨ky, vy⟩ := y
    simp only [List.map_cons, List.nodup_cons, List.mem_cons] at hn
    have hne : ky ≠ kx := fun hEq => hn.1 (Or.inl hEq)
    simp only [lookupField]
    by_cases hky : ky = key <;> by_cases hkx : kx = key
    · exact absurd (hky.trans hkx.symm) hne
    · simp [hky, hkx]
    · simp [hky, hkx]
    · simp [hky, hkx]
  | trans h₁ h₂ ih₁ ih₂ =>
    rw [ih₁ hn, ih₂ (((h₁.map Prod.fst).nodup_iff).mp hn)]

theorem toObj_keys_nodup (e : AccessEvent) :
    ((AccessEvent.toObj e).map Prod.fst).Nodup := by
  show (["device_id", "card_id", "direction", "timestamp",
         "authorized", "offline_mode"] : List String).Nodup
  decide

theorem decodeEvent_toObj (e : AccessEvent) :
    decodeEvent (AccessEvent.toObj e) = some e := rfl

theorem decodeEvent_perm (o : JsonObj) (e : AccessEvent)
    (h : o.Perm (AccessEvent.toObj e)) :
    decodeEvent o = some e := by
  have hn : (o.map Prod.fst).Nodup :=
    ((h.map Prod.fst).nodup_iff).mpr (toObj_keys_nodup e)
  have hl : ∀ key, lookupField o key = lookupField (AccessEvent.toObj e) key :=
    fun key => lookupField_perm h hn key
  unfold decodeEvent
  simp only [hl]
  exact decodeEvent_toObj e

theorem decodeDoc_forall₂ (objs : List JsonObj) (l : List AccessEvent)
    (h : List.Forall₂ (fun o e => o.Perm (AccessEvent.toObj e)) objs l) :
    decodeDoc objs = some l := by
  induction h with
  | nil => rfl
  | cons ho ht ih =>
    simp only [decodeDoc, decodeEvent_perm _ _ ho, ih]

/-- C8: serializing the offline-queue document to storage and
deserializing it back yields the identical ordered cache, and reading the
stored objects as access events recovers exactly the original ordered
event list even when the fields inside each stored object are permuted —
round-trip identity independent of field order.  `dump`/`parse` are the
two directions of the `json` collaborator, assumed to round-trip on the
document and to emit non-blank text. -/
theorem offline_doc_roundtrip (dump : List JsonObj → String)
    (parse : String → Option (List JsonObj)) (objs : List JsonObj)
    (l : List AccessEvent)
    (hjson : parse (dump objs) = some objs)
    (hnb : isBlank (dump objs) = false)
    (h : List.Forall₂ (fun o e => o.Perm (AccessEvent.toObj e)) objs l) :
    load_offline_logs parse (some (persist_offline_logs dump objs)) = (objs, true) ∧
    decodeDoc objs = some l := by
  constructor
  · simp [load_offline_logs, persist_offline_logs, hnb, hjson]
  · exact decodeDoc_forall₂ objs l h

theorem offline_doc_roundtrip_witness :
    load_offline_logs
        (fun s => if s = "[doc]" then
          some [[("card_id", JsonVal.str "123456789"), ("device_id", JsonVal.str "d1"),
                 ("direction", JsonVal.str "in"), ("timestamp", JsonVal.str "t0"),
                 ("offline_mode", JsonVal.bool false), ("authorized", JsonVal.bool true)]]
          else none)
        (some (persist_offline_logs (fun _ => "[doc]")
          [[("card_id", JsonVal.str "123456789"), ("device_id", JsonVal.str "d1"),
            ("direction", JsonVal.str "in"), ("timestamp", JsonVal.str "t0"),
            ("offline_mode", JsonVal.bool false), ("authorized", JsonVal.bool true)]]))
      = ([[("card_id", JsonVal.str "123456789"), ("device_id", JsonVal.str "d1"),
           ("direction", JsonVal.str "in"), ("timestamp", JsonVal.str "t0"),
           ("offline_mode", JsonVal.bool false), ("authorized", JsonVal.bool true)]], true) ∧
    decodeDoc
        [[("card_id", JsonVal.str "123456789"), ("device_id", JsonVal.str "d1"),
          ("direction", JsonVal.str "in"), ("timestamp", JsonVal.str "t0"),
          ("offline_mode", JsonVal.bool false), ("authorized", JsonVal.bool true)]]
      = some [⟨"d1", "123456789", "in", "t0", true, false⟩] := by
  exact offline_doc_roundtrip (fun _ => "[doc]")
    (fun s => if s = "[doc]" then
      some [[("card_id", JsonVal.str "123456789"), ("device_id", JsonVal.str "d1"),
             ("direction", JsonVal.str "in"), ("timestamp", JsonVal.str "t0"),
             ("offline_mode", JsonVal.bool false), ("authorized", JsonVal.bool true)]]
      else none)
    [[("card_id", JsonVal.str "123456789"), ("device_id", JsonVal.str "d1"),
      ("direction", JsonVal.str "in"), ("timestamp", JsonVal.str "t0"),
      ("offline_mode", JsonVal.bool false), ("authorized", JsonVal.bool true)]]
    [⟨"d1", "123456789", "in", "t0", true, false⟩]
    (by rfl) (by decide)
    (by refine List.Forall₂.cons ?_ List.Forall₂.nil; decide)

/-! ### Auto-updater -/

theorem verify_update_false_of_mismatch (sha : List Nat → String)
    (data : List Nat) (info : UpdInfo)
    (h : (∃ hh, info.hash = some hh ∧ sha data ≠ hh) ∨
         (∃ n, info.size = some n ∧ data.length ≠ n)) :
    verify_update sha data info = false := by
  unfold verify_update
  rcases h with ⟨hh, hh1, hh2⟩ | ⟨n, hn1, hn2⟩
  · rw [hh1]
    simp [hh2]
  · rw [hn1]
    simp [hn2]

theorem restore_backup_backups (fs : FsState) :
    (restore_backup fs).backups = fs.backups := by
  unfold restore_backup
  cases fs.backups.getLast? <;> rfl

/-- C4 (amended): a declared-hash or declared-size mismatch on the
downloaded bytes makes verification fail and aborts the session before
any backup archive is created — the backup directory is unchanged — but
the failure handler still runs `_restore_backup`: when the backup
directory already held archives from earlier sessions, the live
application tree is replaced by the most recent of them, and only when
the backup directory is empty is the live tree left unchanged. -/
theorem verify_mismatch_aborts (sha : List Nat → String) (s : UpdaterState)
    (info : UpdInfo) (data : List Nat) (bf ef af : Bool)
    (staged broken : String)
    (hmis : (∃ hh, info.hash = some hh ∧ sha data ≠ hh) ∨
            (∃ n, info.size = some n ∧ data.length ≠ n)) :
    (perform_update sha s info (some data) bf ef af staged broken).fs.backups
      = s.fs.backups ∧
    (s.fs.backups = [] →
      (perform_update sha s info (some data) bf ef af staged broken).fs.appTree
        = s.fs.appTree) ∧
    (∀ b, s.fs.backups.getLast? = some b →
      (perform_update sha s info (some data) bf ef af staged broken).fs.appTree
        = b) := by
  have hv := verify_update_false_of_mismatch sha data info hmis
  have hperf : perform_update sha s info (some data) bf ef af staged broken
      = updateFailPath
          { s with updating := true, reports := s.reports ++ [(info.id, "started")] }
          info.id := by
    unfold perform_update
    dsimp only
    rw [hv]
    rfl
  rw [hperf]
  unfold updateFailPath
  refine ⟨restore_backup_backups _, ?_, ?_⟩
  · intro hb
    unfold restore_backup
    simp [hb]
  · intro b hb
    unfold restore_backup
    simp only [hb]

theorem verify_mismatch_aborts_witness :
    (perform_update (fun _ => "badhash")
        ⟨⟨"appV2", ["appV1"], some "2.0.0", false⟩, false, []⟩
        ⟨"u1", "3.0.0", true, some "goodhash", none, "tar.gz", true⟩
        (some [0]) false false false "staged" "broken").fs.backups = ["appV1"] := by
  have h := (verify_mismatch_aborts (fun _ => "badhash")
    ⟨⟨"appV2", ["appV1"], some "2.0.0", false⟩, false, []⟩
    ⟨"u1", "3.0.0", true, some "goodhash", none, "tar.gz", true⟩
    [0] false false false "staged" "broken"
    (Or.inl ⟨"goodhash", rfl, by decide⟩)).1
  rw [h]

/-- C4 (counterexample to the claim as stated): with a single stale
backup archive already present, a declared-hash mismatch leaves the
backup directory unchanged but does NOT leave the live application tree
unchanged — the failure handler restores the stale archive over it. -/
theorem verify_mismatch_changes_tree_counterexample :
    (perform_update (fun _ => "badhash")
        ⟨⟨"appV2", ["appV1"], some "2.0.0", false⟩, false, []⟩
        ⟨"u1", "3.0.0", true, some "goodhash", none, "tar.gz", true⟩
        (some [0]) false false false "staged" "broken").fs.backups
      = (⟨⟨"appV2", ["appV1"], some "2.0.0", false⟩, false, []⟩ : UpdaterState).fs.backups ∧
    (perform_update (fun _ => "badhash")
        ⟨⟨"appV2", ["appV1"], some "2.0.0", false⟩, false, []⟩
        ⟨"u1", "3.0.0", true, some "goodhash", none, "tar.gz", true⟩
        (some [0]) false false false "staged" "broken").fs.appTree
      ≠ (⟨⟨"appV2", ["appV1"], some "2.0.0", false⟩, false, []⟩ : UpdaterState).fs.appTree := by
  constructor <;> decide

/-- C5 (amended): `check_and_update` opens an update session exactly when
no session is already active, auto-update is enabled, the backend
returned metadata, and that metadata's `update_available` flag is true —
no comparison of the offered version against the current version marker
is performed. -/
theorem check_and_update_opens_iff (auto : Bool) (sha : List Nat → String)
    (s : UpdaterState) (meta : Option UpdInfo) (dl : Option (List Nat))
    (bf ef af : Bool) (staged broken : String) :
    (check_and_update auto sha s meta dl bf ef af staged broken).2 = true ↔
      (s.updating = false ∧ auto = true ∧
        ∃ info, meta = some info ∧ info.update_available = true) := by
  unfold check_and_update
  rcases hu : s.updating
  · rcases meta with _ | info
    · cases auto <;> simp
    · cases auto <;> rcases hav : info.update_available <;> simp [hav]
  · simp

/-- C5 (counterexample to the claim as stated): the offered version
equals the current version recorded in the version marker — it is not
strictly newer — yet a session is opened and the download proceeds,
because the code only consults the metadata's `update_available` flag. -/
theorem check_and_update_version_counterexample :
    (check_and_update true (fun _ => "h")
        ⟨⟨"app", [], some "1.0.0", false⟩, false, []⟩
        (some ⟨"u1", "1.0.0", true, none, none, "tar.gz", true⟩)
        (some [0]) false false false "staged" "broken").2 = true ∧
    get_current_version (⟨⟨"app", [], some "1.0.0", false⟩, false, []⟩ : UpdaterState).fs
      = (⟨"u1", "1.0.0", true, none, none, "tar.gz", true⟩ : UpdInfo).version := by
  constructor <;> decide

/-- C6: at most one update session exists at a time — invoking
`check_and_update` while the `updating` flag is set returns immediately
with the whole state unchanged (no backend report, no new backup archive,
nothing queued) — and `_perform_update` clears the `updating` flag on
every path through the session. -/
theorem update_session_exclusive (auto : Bool) (sha : List Nat → String)
    (s : UpdaterState) (meta : Option UpdInfo) (info : UpdInfo)
    (dl : Option (List Nat)) (bf ef af : Bool) (staged broken : String) :
    (s.updating = true →
      check_and_update auto sha s meta dl bf ef af staged broken = (s, false)) ∧
    (perform_update sha s info dl bf ef af staged broken).updating = false := by
  constructor
  · intro hu
    unfold check_and_update
    simp [hu]
  · unfold perform_update
    rcases dl with _ | data
    · rfl
    · by_cases hv : verify_update sha data info
      · simp only [hv, Bool.not_true]
        by_cases hbf : bf = true
        · simp only [hbf]
          rfl
        · simp only [Bool.not_eq_true] at hbf
          simp only [hbf]
          by_cases hex : (ef || !supportedFormats.contains info.format) = true
          · simp only [hex]
            rfl
          · simp only [Bool.not_eq_true] at hex
            simp only [hex]
            by_cases haf : af = true
            · simp only [haf]
              rfl
            · simp only [Bool.not_eq_true] at haf
              simp only [haf]
              by_cases hr : info.requires_restart = true <;> simp [hr]
      · simp only [Bool.not_eq_true] at hv
        simp only [hv]
        rfl

theorem update_session_exclusive_witness :
    check_and_update true (fun _ => "h")
        ⟨⟨"app", [], some "1.0.0", false⟩, true, []⟩
        (some ⟨"u1", "2.0.0", true, none, none, "tar.gz", true⟩)
        (some [0]) false false false "staged" "broken"
      = (⟨⟨"app", [], some "1.0.0", false⟩, true, []⟩, false) ∧
    (perform_update (fun _ => "h")
        ⟨⟨"app", [], some "1.0.0", false⟩, false, []⟩
        ⟨"u1", "2.0.0", true, none, none, "tar.gz", true⟩
        (some [0]) false false false "staged" "broken").updating = false := by
  have h := update_session_exclusive true (fun _ => "h")
    ⟨⟨"app", [], some "1.0.0", false⟩, true, []⟩
    (some ⟨"u1", "2.0.0", true, none, none, "tar.gz", true⟩)
    ⟨"u1", "2.0.0", true, none, none, "tar.gz", true⟩
    (some [0]) false false false "staged" "broken"
  have h2 := update_session_exclusive true (fun _ => "h")
    ⟨⟨"app", [], some "1.0.0", false⟩, false, []⟩
    (some ⟨"u1", "2.0.0", true, none, none, "tar.gz", true⟩)
    ⟨"u1", "2.0.0", true, none, none, "tar.gz", true⟩
    (some [0]) false false false "staged" "broken"
  exact ⟨h.1 rfl, h2.2⟩

end NfcGate
